import Mathlib

/-!
Verification of the tool-dispatching chat backend (`app.py`).

Python strings are modelled as `List Char` (`Str`), HTML documents as an
abstract DOM tree (`Node`) standing for the BeautifulSoup parse tree, and
the outbound HTTP layer as an explicit oracle (`Net`) so that the pure
orchestration logic of `run_agent`, the HTML extractor `fetch_url_tool`,
the search parser `duckduckgo_search_tool` and the streamer `chunk_reply`
become total Lean functions.
-/

set_option autoImplicit false

namespace App

/-- Python `str`, modelled as a list of characters. -/
abbrev Str := List Char

/-- Shorthand to write `Str` literals. -/
def str (s : String) : Str := s.toList

/-! ### Python string primitives used by the code -/

/-- Python `s.strip()`: drop leading and trailing whitespace. -/
def pyStrip (s : Str) : Str :=
  ((s.dropWhile Char.isWhitespace).reverse.dropWhile Char.isWhitespace).reverse

/-- Helper for `str.split()`: accumulates the current word (reversed). -/
def splitWsAux (cur : Str) : Str → List Str
  | [] => if cur = [] then [] else [cur.reverse]
  | c :: cs =>
    if c.isWhitespace then
      if cur = [] then splitWsAux [] cs else cur.reverse :: splitWsAux [] cs
    else
      splitWsAux (c :: cur) cs

/-- Python `s.split()` with no argument: split on whitespace runs,
dropping empty fragments. -/
def pySplitWs (s : Str) : List Str := splitWsAux [] s

/-- Python `" ".join(ws)`. -/
def spaceJoin : List Str → Str
  | [] => []
  | [w] => w
  | w :: ws => w ++ ' ' :: spaceJoin ws

/-! ### `chunk_reply` (app.py lines 293-314) -/

/-- The `for word in words` loop of `chunk_reply`: `current` accumulates
words until `words_per_chunk` of them are collected, then the joined chunk
is emitted; a trailing partial `current` is emitted at the end. -/
def chunkLoop (wpc : Nat) (current : List Str) : List Str → List Str
  | [] => if current = [] then [] else [spaceJoin current]
  | w :: ws =>
    if wpc ≤ (current ++ [w]).length then
      spaceJoin (current ++ [w]) :: chunkLoop wpc [] ws
    else
      chunkLoop wpc (current ++ [w]) ws

/-- `chunk_reply(text, words_per_chunk=6)` from app.py: empty text yields
`[""]`, otherwise the words of `text` are grouped and space-joined. -/
def chunk_reply (text : Str) (words_per_chunk : Nat := 6) : List Str :=
  if text = [] then [[]]
  else chunkLoop words_per_chunk [] (pySplitWs text)

/-- Spec-side grouping: consecutive groups of exactly `n` elements, the
last group keeping whatever remains (1 to `n` elements). -/
def groupsOf {α : Type} (n : Nat) : List α → List (List α)
  | [] => []
  | x :: xs => (x :: xs.take (n - 1)) :: groupsOf n (xs.drop (n - 1))
termination_by l => l.length
decreasing_by
  simp only [List.length_drop, List.length_cons]
  exact Nat.lt_succ_of_le (Nat.sub_le _ _)

/-! ### DOM model

`Node` stands for a node of the BeautifulSoup parse tree built from the
response text; a document (a soup) is a list of top-level nodes. -/

/-- A parsed HTML node: an element with tag, attributes and children, or a
text node. -/
inductive Node : Type where
  | elem (tag : Str) (attrs : List (Str × Str)) (children : List Node)
  | text (s : Str)
deriving Repr

/-- `tag.get(key)`: first attribute with the given name, if any. -/
def attrGet (attrs : List (Str × Str)) (key : Str) : Option Str :=
  match attrs.find? (fun p => p.1 == key) with
  | some p => some p.2
  | none => none

/-- Children of a node (text nodes have none). -/
def nodeChildren : Node → List Node
  | .text _ => []
  | .elem _ _ cs => cs

/-- Attributes of a node (text nodes have none). -/
def nodeAttrs : Node → List (Str × Str)
  | .text _ => []
  | .elem _ a _ => a

mutual
/-- `node.get_text(strip=True)`: concatenation of the individually
stripped text descendants, in document order. -/
def getText : Node → Str
  | .text s => pyStrip s
  | .elem _ _ cs => getTextList cs

/-- `get_text` over a list of sibling nodes. -/
def getTextList : List Node → Str
  | [] => []
  | n :: ns => getText n ++ getTextList ns
end

mutual
/-- `soup.find_all(tags)` restricted to one subtree: all elements whose
tag is in `tags`, in document (preorder) order. -/
def findAllNode (tags : List Str) : Node → List Node
  | .text _ => []
  | .elem t a cs =>
    (if t ∈ tags then [Node.elem t a cs] else []) ++ findAllList tags cs

/-- `find_all` over a list of sibling subtrees. -/
def findAllList (tags : List Str) : List Node → List Node
  | [] => []
  | n :: ns => findAllNode tags n ++ findAllList tags ns
end

/-- A CSS selector of the shapes used in app.py: a tag name, optionally
an exact attribute requirement (`tag[key="value"]`) or a class
requirement (`tag.cls`). -/
structure Selector where
  tag : Str
  attr : Option (Str × Str) := none
  cls : Option Str := none

/-- Whether a node matches one selector; class matching checks membership
in the whitespace-separated `class` attribute. -/
def nodeMatches (sel : Selector) : Node → Bool
  | .text _ => false
  | .elem t attrs _ =>
    (t == sel.tag) &&
    (match sel.attr with
     | none => true
     | some kv => attrGet attrs kv.1 == some kv.2) &&
    (match sel.cls with
     | none => true
     | some c => (pySplitWs ((attrGet attrs (str "class")).getD [])).contains c)

/-- Whether a node matches a comma-list of selectors. -/
def selMatchAny (sels : List Selector) (n : Node) : Bool :=
  sels.any (fun s => nodeMatches s n)

mutual
/-- `select_one` inside one subtree (the root itself included): first
matching element in document order. -/
def selectFirstNode (sels : List Selector) : Node → Option Node
  | .text _ => none
  | .elem t a cs =>
    if selMatchAny sels (.elem t a cs) then some (.elem t a cs)
    else selectFirstList sels cs

/-- `soup.select_one` / `tag.select_one`: first match across a list of
subtrees in document order. -/
def selectFirstList (sels : List Selector) : List Node → Option Node
  | [] => none
  | n :: ns =>
    match selectFirstNode sels n with
    | some m => some m
    | none => selectFirstList sels ns
end

mutual
/-- `select` inside one subtree: all matching elements in document
(preorder) order. -/
def selectAllNode (sels : List Selector) : Node → List Node
  | .text _ => []
  | .elem t a cs =>
    (if selMatchAny sels (.elem t a cs) then [Node.elem t a cs] else []) ++
      selectAllList sels cs

/-- `soup.select`: all matches across a list of subtrees. -/
def selectAllList (sels : List Selector) : List Node → List Node
  | [] => []
  | n :: ns => selectAllNode sels n ++ selectAllList sels ns
end

/-! ### HTML extractor (`fetch_url_tool`, app.py lines 151-209) -/

/-- A normalized search result (`SearchResult` pydantic model). -/
structure SearchResult where
  title : Str
  href : Str
  body : Str
deriving DecidableEq, Repr

/-- One entry of the raw `structured` list built by the search loop. -/
structure RawResult where
  title : Str
  href : Str
  body : Str
deriving DecidableEq, Repr

/-- `SearchResult(**item)` over a raw dict. -/
def rawToSearchResult (r : RawResult) : SearchResult :=
  ⟨r.title, r.href, r.body⟩

/-- The `UrlContent` pydantic model. -/
structure UrlContent where
  url : Str
  status_code : Int
  content_type : Option Str := none
  title : Option Str := none
  description : Option Str := none
  headings : Option (List Str) := none
  preview : Option Str := none
deriving DecidableEq, Repr

/-- The selector `title`. -/
def titleSel : Selector := { tag := str "title" }

/-- The selector `meta[name="description"]`. -/
def metaDescSel : Selector :=
  { tag := str "meta", attr := some (str "name", str "description") }

/-- The selector `meta[property="og:description"]`. -/
def metaOgDescSel : Selector :=
  { tag := str "meta", attr := some (str "property", str "og:description") }

/-- `_first_text(elements)` from `fetch_url_tool`: try each selector in
order, returning the first non-empty stripped text; a matching node with
empty text falls through to the next selector. -/
def firstText (doc : List Node) : List Selector → Option Str
  | [] => none
  | sel :: rest =>
    match selectFirstList [sel] doc with
    | some node =>
      let t := getText node
      if t ≠ [] then some t else firstText doc rest
    | none => firstText doc rest

/-- The `headings` list comprehension of `fetch_url_tool`: non-empty
stripped texts of the `h1`/`h2` elements in document order, capped at 5. -/
def headingsList (doc : List Node) : List Str :=
  (((findAllList [str "h1", str "h2"] doc).map getText).filter
    (fun t => t ≠ [])).take 5

/-- `headings=headings or None` of `fetch_url_tool`. -/
def headingsOf (doc : List Node) : Option (List Str) :=
  if headingsList doc = [] then none else some (headingsList doc)

/-- The `paragraph_chunks` list comprehension of `fetch_url_tool`:
non-empty stripped texts of the `p` elements in document order. -/
def previewChunks (doc : List Node) : List Str :=
  ((findAllList [str "p"] doc).map getText).filter (fun t => t ≠ [])

/-- The `preview_text` computation and `preview=preview_text or None` of
`fetch_url_tool`: space-join the paragraph chunks, truncate a non-empty
join to 500 characters, and encode an empty result as absent. -/
def previewOf (doc : List Node) : Option Str :=
  let preview0 := spaceJoin (previewChunks doc)
  let preview_text := if preview0 ≠ [] then preview0.take 500 else preview0
  if preview_text = [] then none else some preview_text

/-- The pure extraction part of `fetch_url_tool`: builds the `UrlContent`
from the parsed document and the response metadata. -/
def extractPage (doc : List Node) (url : Str) (status_code : Int)
    (content_type : Option Str) : UrlContent :=
  { url := url
    status_code := status_code
    content_type := content_type
    title := firstText doc [titleSel]
    description := firstText doc [metaDescSel, metaOgDescSel]
    headings := headingsOf doc
    preview := previewOf doc }

/-! ### Search result parser (`duckduckgo_search_tool`, app.py 93-148) -/

/-- The selector `div.result`. -/
def resultSel : Selector := { tag := str "div", cls := some (str "result") }

/-- The selector `a.result__a`. -/
def resultASel : Selector := { tag := str "a", cls := some (str "result__a") }

/-- The selector list `a.result__snippet, div.result__snippet`. -/
def snippetSels : List Selector :=
  [{ tag := str "a", cls := some (str "result__snippet") },
   { tag := str "div", cls := some (str "result__snippet") }]

/-- The dict appended to `structured` for one container `r` whose title
anchor is `title_tag`: the stripped anchor text, the anchor `href` (or
`""`), and the stripped snippet text (or `""`). -/
def scanRecord (r : Node) (title_tag : Node) : RawResult :=
  ⟨getText title_tag,
   (attrGet (nodeAttrs title_tag) (str "href")).getD [],
   match selectFirstList snippetSels (nodeChildren r) with
   | some snippet_tag => getText snippet_tag
   | none => []⟩

/-- The `for result in soup.select("div.result")` loop: skip containers
without an `a.result__a` anchor, append a raw record otherwise, and stop
as soon as `structured` reaches `max_results` entries. -/
def ddgScan (max_results : Nat) (structured : List RawResult) :
    List Node → List RawResult
  | [] => structured
  | r :: rs =>
    match selectFirstList [resultASel] (nodeChildren r) with
    | none => ddgScan max_results structured rs
    | some title_tag =>
      let structured' := structured ++ [scanRecord r title_tag]
      if max_results ≤ structured'.length then structured'
      else ddgScan max_results structured' rs

/-- The pure parsing part of `duckduckgo_search_tool`: scan the parsed
response document and build the normalized and raw result lists. -/
def ddgParse (dom : List Node) (max_results : Nat) :
    List SearchResult × List RawResult :=
  let structured := ddgScan max_results [] (selectAllList [resultSel] dom)
  (structured.map rawToSearchResult, structured)

/-! ### Outbound HTTP layer and the tools -/

/-- `ChatRequest.safesearch` (a three-value literal). -/
inductive Safesearch : Type where
  | off | moderate | strict
deriving DecidableEq, Repr

/-- `SAFESEARCH_MAP`; total on the literal, so the `.get` default never
fires. -/
def SAFESEARCH_MAP : Safesearch → Str
  | .off => str "-2"
  | .moderate => str "-1"
  | .strict => str "1"

/-- The form payload posted to the DuckDuckGo HTML endpoint. -/
structure SearchPayload where
  q : Str
  kl : Str
  kp : Str
deriving DecidableEq, Repr

/-- An HTTP response to a fetch, already parsed: the DOM, the final
resolved `response.url`, the status code and the content type. -/
structure FetchedPage where
  dom : List Node
  url : Str
  status_code : Int
  content_type : Option Str
deriving Repr

/-- The network oracle standing for `httpx`: each outbound request either
yields a parsed response or a transport failure cause string
(`httpx.HTTPError`). -/
structure Net where
  post : SearchPayload → Except Str (List Node)
  get : Str → Except Str FetchedPage

/-- `fastapi.HTTPException`. -/
structure HTTPEx where
  status_code : Int
  detail : Str
deriving DecidableEq, Repr

/-- A record of one outbound network request. -/
inductive NetCall : Type where
  | post (payload : SearchPayload)
  | get (url : Str)
deriving Repr

/-- `duckduckgo_search_tool`: post the query to the HTML endpoint, wrap
transport failures into a 502 `HTTPException`, and parse the rest; also
reports the network calls it made. -/
def duckduckgo_search_tool (net : Net) (query : Str) (max_results : Nat)
    (region : Str) (safesearch : Safesearch) :
    Except HTTPEx (List SearchResult × List RawResult) × List NetCall :=
  let payload : SearchPayload := ⟨query, region, SAFESEARCH_MAP safesearch⟩
  (match net.post payload with
   | .error exc => .error ⟨502, str "DuckDuckGo search failed: " ++ exc⟩
   | .ok dom => .ok (ddgParse dom max_results),
   [.post payload])

/-- `fetch_url_tool`: fetch the URL, wrap transport failures into a 502
`HTTPException`, extract the page content; also reports the network calls
it made. -/
def fetch_url_tool (net : Net) (url : Str) :
    Except HTTPEx UrlContent × List NetCall :=
  (match net.get url with
   | .error exc => .error ⟨502, str "URL fetch failed: " ++ exc⟩
   | .ok page =>
     .ok (extractPage page.dom page.url page.status_code page.content_type),
   [.get url])

/-! ### Tool dispatcher (`run_agent`, app.py 212-290) and endpoints -/

/-- The `tool` literal of `ChatRequest`. -/
inductive ToolChoice : Type where
  | duckduckgo_search | fetch_url
deriving DecidableEq, Repr

/-- The `ChatRequest` pydantic model. The pydantic layer validates
`message` non-empty and `1 ≤ max_results ≤ 10` before dispatch; those
constraints appear as hypotheses where a theorem needs them. -/
structure ChatRequest where
  message : Str
  tool : Option ToolChoice := none
  url : Option Str := none
  max_results : Nat := 3
  region : Str := str "wt-wt"
  safesearch : Safesearch := .moderate
deriving Repr

/-- The `ChatResponse` pydantic model. -/
structure ChatResponse where
  reply : Str
  used_tool : Bool
  tool : Option Str := none
  results : Option (List SearchResult) := none
  url_content : Option UrlContent := none
deriving DecidableEq, Repr

/-- One entry of `history["tool_calls"]`. -/
inductive ToolCallRec : Type where
  | search (keywords : Str) (max_results : Nat) (region : Str)
      (safesearch : Safesearch)
  | fetch (url : Str)
deriving DecidableEq, Repr

/-- One entry of `history["tool_results"]` (the raw, unnormalized data). -/
inductive ToolResultRec : Type where
  | search (data : List RawResult)
  | fetch (data : UrlContent)
deriving DecidableEq, Repr

/-- The request-scoped audit trail (`history` dict in `run_agent`). -/
structure History where
  user_message : Str
  tool_calls : List ToolCallRec
  tool_results : List ToolResultRec
  final_response : Option ChatResponse
deriving Repr

/-- What `run_agent` produces: the response or the raised
`HTTPException`, the audit trail at the moment control leaves the
function, and the outbound network calls that were performed. -/
structure AgentResult where
  outcome : Except HTTPEx ChatResponse
  history : History
  calls : List NetCall

/-- The static guidance reply of the no-tool branch. -/
def noToolReply : Str :=
  str "No tool requested. Provide tool=\x27duckduckgo_search\x27 for web search or tool=\x27fetch_url\x27 with a \x27url\x27 to pull page content."

/-- `run_agent(payload)`: the shared orchestration logic of both
endpoints, with the network abstracted by `net`. -/
def run_agent (net : Net) (payload : ChatRequest) : AgentResult :=
  let history0 : History := ⟨payload.message, [], [], none⟩
  match payload.tool with
  | some .duckduckgo_search =>
    let h1 := { history0 with
      tool_calls := history0.tool_calls ++
        [.search payload.message payload.max_results payload.region
          payload.safesearch] }
    match duckduckgo_search_tool net payload.message payload.max_results
        payload.region payload.safesearch with
    | (.error exc, calls) => ⟨.error exc, h1, calls⟩
    | (.ok (results, raw_results), calls) =>
      let h2 := { h1 with
        tool_results := h1.tool_results ++ [ToolResultRec.search raw_results] }
      let found :=
        if results ≠ [] then
          str "duckduckgo_search found " ++ str (toString results.length) ++
            str " result(s)"
        else str "duckduckgo_search returned no results"
      let response : ChatResponse :=
        { reply := found ++ str " for query: " ++ payload.message
          used_tool := true
          tool := some (str "duckduckgo_search")
          results := if results = [] then none else some results }
      ⟨.ok response, { h2 with final_response := some response }, calls⟩
  | some .fetch_url =>
    match payload.url with
    | none =>
      ⟨.error ⟨422, str "Field \x27url\x27 is required when using tool=\x27fetch_url\x27."⟩,
        history0, []⟩
    | some u =>
      let h1 := { history0 with
        tool_calls := history0.tool_calls ++ [.fetch u] }
      match fetch_url_tool net u with
      | (.error exc, calls) => ⟨.error exc, h1, calls⟩
      | (.ok url_content, calls) =>
        let h2 := { h1 with
          tool_results := h1.tool_results ++ [ToolResultRec.fetch url_content] }
        let response : ChatResponse :=
          { reply := str "Fetched and parsed " ++ url_content.url
            used_tool := true
            tool := some (str "fetch_url")
            url_content := some url_content }
        ⟨.ok response, { h2 with final_response := some response }, calls⟩
  | none =>
    let response : ChatResponse := { reply := noToolReply, used_tool := false }
    ⟨.ok response, { history0 with final_response := some response }, []⟩

/-- A server-sent event of the streaming endpoint. -/
inductive StreamEvent : Type where
  | token (value : Str)
  | message (value : ChatResponse)
deriving DecidableEq, Repr

/-- `POST /chat` (`chat_agent`): the non-streaming endpoint. -/
def chat_agent (net : Net) (payload : ChatRequest) :
    Except HTTPEx ChatResponse :=
  (run_agent net payload).outcome

/-- The `event_generator` of `chat_agent_stream`: one token event per
chunk of the reply, then exactly one message event with the full
response. -/
def eventList (response : ChatResponse) : List StreamEvent :=
  (chunk_reply response.reply).map StreamEvent.token ++
    [StreamEvent.message response]

/-- `POST /chat/stream` (`chat_agent_stream`): the streaming endpoint,
rendered as the list of events it emits. -/
def chat_agent_stream (net : Net) (payload : ChatRequest) :
    Except HTTPEx (List StreamEvent) :=
  match (run_agent net payload).outcome with
  | .error exc => .error exc
  | .ok response => .ok (eventList response)

/-! ### Spec-side characterization of the search parser -/

/-- The record the scan loop builds for one `div.result` container, when
the container has an `a.result__a` anchor; `none` when it lacks one. -/
def candidateRecord (r : Node) : Option RawResult :=
  (selectFirstList [resultASel] (nodeChildren r)).map (scanRecord r)

/-- All valid (titled) candidates of a search response document, in
document order. -/
def validCandidates (dom : List Node) : List RawResult :=
  (selectAllList [resultSel] dom).filterMap candidateRecord

/-! ### Concrete fixtures -/

/-- `<meta name="description" content="A description">`. -/
def c1MetaDesc : Node :=
  .elem (str "meta")
    [(str "name", str "description"), (str "content", str "A description")] []

/-- `<meta property="og:description" content="OG desc">`. -/
def c1MetaOg : Node :=
  .elem (str "meta")
    [(str "property", str "og:description"), (str "content", str "OG desc")] []

/-- A crafted page: a title, both meta description variants with
non-empty `content`, two headings and two non-empty paragraphs. -/
def c1Doc : List Node :=
  [.elem (str "html") []
    [.elem (str "head") []
      [.elem (str "title") [] [.text (str "  My Title ")], c1MetaDesc, c1MetaOg],
     .elem (str "body") []
      [.elem (str "h1") [] [.text (str "H one")],
       .elem (str "h2") [] [.text (str "H two")],
       .elem (str "p") [] [.text (str "para one")],
       .elem (str "p") [] [.text (str "")],
       .elem (str "p") [] [.text (str "para two")]]]]

/-- A search result container with an `a.result__a` anchor and a snippet. -/
def mkResultDiv (t h s : Str) : Node :=
  .elem (str "div") [(str "class", str "result results_links")]
    [.elem (str "a") [(str "class", str "result__a"), (str "href", h)]
      [.text t],
     .elem (str "div") [(str "class", str "result__snippet")] [.text s]]

/-- A `div.result` container lacking a title anchor. -/
def badResultDiv : Node :=
  .elem (str "div") [(str "class", str "result")]
    [.elem (str "span") [] [.text (str "no anchor")]]

/-- A search response: three valid containers with an anchorless one
interleaved. -/
def searchDoc : List Node :=
  [.elem (str "body") []
    [mkResultDiv (str "R1") (str "http://1") (str "s1"),
     badResultDiv,
     mkResultDiv (str "R2") (str "http://2") (str "s2"),
     mkResultDiv (str "R3") (str "http://3") (str "s3")]]

/-- A page whose `<p>` elements all have empty stripped text and which
has no headings. -/
def c7Doc : List Node :=
  [.elem (str "body") []
    [.elem (str "p") [] [.text (str "   ")],
     .elem (str "p") [] [],
     .elem (str "div") [] [.text (str "not a paragraph")]]]

/-- A network oracle whose search endpoint returns an empty document and
whose fetch endpoint returns an empty page. -/
def trivialNet : Net :=
  { post := fun _ => .ok []
    get := fun _ => .ok ⟨[], str "http://e/", 200, none⟩ }

/-- A request with no tool directive. -/
def noToolPayload : ChatRequest := { message := str "hi" }

/-- A request for `fetch_url` with the `url` field absent. -/
def fetchNoUrlPayload : ChatRequest :=
  { message := str "hi", tool := some ToolChoice.fetch_url }

/-- A search request. -/
def searchReqPayload : ChatRequest :=
  { message := str "hi", tool := some ToolChoice.duckduckgo_search }

/-- The response the no-tool branch builds. -/
def noToolResponse : ChatResponse :=
  { reply := noToolReply, used_tool := false }

/-- The response built for a search that returned no results for the
query `"hi"`. -/
def emptySearchResponse : ChatResponse :=
  { reply := str "duckduckgo_search returned no results for query: hi"
    used_tool := true
    tool := some (str "duckduckgo_search") }

/-- A response whose reply is empty. -/
def emptyReplyResponse : ChatResponse :=
  { reply := [], used_tool := false }

/-- A response whose reply is a single space. -/
def wsReplyResponse : ChatResponse :=
  { reply := str " ", used_tool := false }

/-! ## Theorems -/

theorem groupsOf_nil {α : Type} (n : Nat) : groupsOf n ([] : List α) = [] := by
  simp [groupsOf]

theorem groupsOf_cons {α : Type} (n : Nat) (x : α) (xs : List α) :
    groupsOf n (x :: xs) =
      (x :: xs.take (n - 1)) :: groupsOf n (xs.drop (n - 1)) := by
  simp [groupsOf]

theorem groupsOf_eq_cons {α : Type} {wpc : Nat} (g rest : List α)
    (hg : g.length = wpc) (hpos : 0 < wpc) :
    groupsOf wpc (g ++ rest) = g :: groupsOf wpc rest := by
  cases g with
  | nil => simp at hg; omega
  | cons c cs =>
    have h1 : wpc - 1 = cs.length := by
      simp only [List.length_cons] at hg; omega
    rw [List.cons_append, groupsOf_cons, h1, List.take_left, List.drop_left]

theorem chunkLoop_eq_groupsOf (wpc : Nat) (hpos : 0 < wpc) :
    ∀ (ws : List Str) (cur : List Str), cur.length < wpc →
      chunkLoop wpc cur ws = (groupsOf wpc (cur ++ ws)).map spaceJoin := by
  intro ws
  induction ws with
  | nil =>
    intro cur hcur
    cases cur with
    | nil => simp [chunkLoop, groupsOf_nil]
    | cons c cs =>
      have h1 : cs.length ≤ wpc - 1 := by
        simp only [List.length_cons] at hcur; omega
      simp [chunkLoop, groupsOf_cons, groupsOf_nil, List.take_of_length_le h1,
        List.drop_eq_nil_of_le h1]
  | cons w ws ih =>
    intro cur hcur
    simp only [chunkLoop]
    by_cases hfull : wpc ≤ (cur ++ [w]).length
    · have hlen : (cur ++ [w]).length = wpc := by
        simp only [List.length_append, List.length_cons, List.length_nil]
          at hfull ⊢
        omega
      rw [if_pos hfull, ih [] (by simpa using hpos)]
      have hsplit : cur ++ w :: ws = (cur ++ [w]) ++ ws := by simp
      rw [hsplit, groupsOf_eq_cons _ _ hlen hpos, List.map_cons,
        List.nil_append]
    · rw [if_neg hfull, ih (cur ++ [w]) (Nat.lt_of_not_le hfull),
        List.append_assoc]
      rfl

theorem splitWsAux_all_ws (s : Str) (h : ∀ c ∈ s, c.isWhitespace) :
    splitWsAux [] s = [] := by
  induction s with
  | nil => rfl
  | cons c cs ih =>
    have hc : c.isWhitespace = true := h c (by simp)
    simp only [splitWsAux, hc, if_true, reduceIte]
    exact ih (fun d hd => h d (by simp [hd]))

theorem groupsOf_flatten {α : Type} (n : Nat) :
    ∀ l : List α, (groupsOf n l).flatten = l
  | [] => by simp [groupsOf_nil]
  | x :: xs => by
    have ih := groupsOf_flatten n (xs.drop (n - 1))
    rw [groupsOf_cons]
    simp [ih, List.take_append_drop]
termination_by l => l.length
decreasing_by simp [List.length_drop]; omega

theorem groupsOf_ne_nil {α : Type} (n : Nat) (x : α) (xs : List α) :
    groupsOf n (x :: xs) ≠ [] := by
  rw [groupsOf_cons]; simp

theorem groupsOf_mem_length {α : Type} (n : Nat) (hpos : 0 < n) :
    ∀ (l : List α) (g : List α), g ∈ groupsOf n l →
      1 ≤ g.length ∧ g.length ≤ n
  | [], g, hg => by simp [groupsOf_nil] at hg
  | x :: xs, g, hg => by
    rw [groupsOf_cons] at hg
    rcases List.mem_cons.1 hg with hg | hg
    · subst hg
      constructor
      · simp
      · have : (xs.take (n - 1)).length ≤ n - 1 := by
          simp [List.length_take]
        simp only [List.length_cons]
        omega
    · exact groupsOf_mem_length n hpos (xs.drop (n - 1)) g hg
termination_by l => l.length
decreasing_by simp [List.length_drop]; omega

theorem groupsOf_dropLast_length {α : Type} (n : Nat) (hpos : 0 < n) :
    ∀ (l : List α) (g : List α), g ∈ (groupsOf n l).dropLast →
      g.length = n
  | [], g, hg => by simp [groupsOf_nil] at hg
  | x :: xs, g, hg => by
    rw [groupsOf_cons] at hg
    cases hrest : groupsOf n (xs.drop (n - 1)) with
    | nil => rw [hrest] at hg; simp at hg
    | cons r rs =>
      rw [hrest, List.dropLast_cons_of_ne_nil (by simp)] at hg
      rcases List.mem_cons.1 hg with hg | hg
      · subst hg
        have hne : xs.drop (n - 1) ≠ [] := by
          intro hnil
          rw [hnil, groupsOf_nil] at hrest
          exact List.noConfusion hrest
        have hlen : n - 1 ≤ xs.length := by
          by_contra hlt
          exact hne (List.drop_eq_nil_of_le (by omega))
        simp only [List.length_cons, List.length_take]
        omega
      · exact groupsOf_dropLast_length n hpos (xs.drop (n - 1)) g
          (by rw [hrest]; exact hg)
termination_by l => l.length
decreasing_by simp [List.length_drop]; omega

/-- C5: `chunk_reply` splits the reply on whitespace into words and
groups them into space-joined chunks of exactly 6 words, the last chunk
keeping 1 to 6 words; `chunk_reply "a b c d e f g" = ["a b c d e f", "g"]`
and `chunk_reply "" = [""]`, so an empty reply produces exactly one
empty-string token event before the single message event. -/
theorem C5_chunk_reply_grouping :
    (∀ text : Str, chunk_reply text =
      if text = [] then [str ""]
      else (groupsOf 6 (pySplitWs text)).map spaceJoin)
    ∧ (∀ text : Str, (groupsOf 6 (pySplitWs text)).flatten = pySplitWs text)
    ∧ (∀ text : Str, ∀ g ∈ (groupsOf 6 (pySplitWs text)).dropLast,
        g.length = 6)
    ∧ (∀ text : Str, ∀ g ∈ groupsOf 6 (pySplitWs text),
        1 ≤ g.length ∧ g.length ≤ 6)
    ∧ chunk_reply (str "a b c d e f g") = [str "a b c d e f", str "g"]
    ∧ chunk_reply (str "") = [str ""]
    ∧ (∀ r : ChatResponse, r.reply = [] →
        eventList r = [StreamEvent.token (str ""), StreamEvent.message r]) := by
  refine ⟨?_, ?_, ?_, ?_, by decide, by decide, ?_⟩
  · intro text
    by_cases htext : text = []
    · simp [chunk_reply, htext, str]
    · rw [chunk_reply, if_neg htext, if_neg htext,
        chunkLoop_eq_groupsOf 6 (by omega) (pySplitWs text) [] (by simp),
        List.nil_append]
  · intro text
    exact groupsOf_flatten 6 (pySplitWs text)
  · intro text g hg
    exact groupsOf_dropLast_length 6 (by omega) (pySplitWs text) g hg
  · intro text g hg
    exact groupsOf_mem_length 6 (by omega) (pySplitWs text) g hg
  · intro r hr
    simp [eventList, hr, chunk_reply, str]

/-- Witness for C5: the empty reply yields the single empty-string chunk
and the token-then-message event sequence. -/
theorem C5_witness :
    chunk_reply (str "") = [str ""]
    ∧ eventList emptyReplyResponse =
        [StreamEvent.token (str ""), StreamEvent.message emptyReplyResponse] :=
  ⟨C5_chunk_reply_grouping.2.2.2.2.2.1,
   C5_chunk_reply_grouping.2.2.2.2.2.2 emptyReplyResponse rfl⟩

/-- C10: a non-empty, all-whitespace reply splits into zero words, so
`chunk_reply` returns the empty list and the stream carries zero token
events before the single message event. -/
theorem C10_whitespace_reply_no_tokens (text : Str) (hne : text ≠ [])
    (hws : ∀ c ∈ text, c.isWhitespace) :
    chunk_reply text = []
    ∧ (∀ r : ChatResponse, r.reply = text →
        eventList r = [StreamEvent.message r]) := by
  have hsplit : pySplitWs text = [] := splitWsAux_all_ws text hws
  constructor
  · rw [chunk_reply, if_neg hne, hsplit]
    rfl
  · intro r hr
    rw [eventList, hr, chunk_reply, if_neg hne, hsplit]
    rfl

/-- Witness for C10: the single-space reply yields no chunks and a
message-only event stream. -/
theorem C10_witness :
    chunk_reply (str " ") = []
    ∧ eventList wsReplyResponse = [StreamEvent.message wsReplyResponse] :=
  ⟨(C10_whitespace_reply_no_tokens (str " ") (by decide) (by decide)).1,
   (C10_whitespace_reply_no_tokens (str " ") (by decide) (by decide)).2
     wsReplyResponse rfl⟩

/-- C1: contrary to the claim, the extractor never returns the meta
`content` value: on a head holding both `meta[name="description"]` and
`meta[property="og:description"]` with non-empty `content` attributes,
`description` comes out absent, because `_first_text` reads the (empty)
text of the meta elements and never their `content` attribute. -/
theorem C1_description_not_extracted :
    (extractPage c1Doc (str "http://example.com/") 200 none).description = none
    ∧ selectFirstList [metaDescSel] c1Doc = some c1MetaDesc
    ∧ attrGet (nodeAttrs c1MetaDesc) (str "content") = some (str "A description")
    ∧ attrGet (nodeAttrs c1MetaOg) (str "content") = some (str "OG desc")
    ∧ getText c1MetaDesc = [] := by
  exact ⟨rfl, rfl, rfl, rfl, rfl⟩

/-- C6: whatever the input document, the extracted preview is at most
500 characters and the extracted headings list has at most 5 entries. -/
theorem C6_preview_headings_bounded (doc : List Node) (url : Str)
    (status_code : Int) (content_type : Option Str) :
    (∀ p, (extractPage doc url status_code content_type).preview = some p →
      p.length ≤ 500)
    ∧ (∀ hs, (extractPage doc url status_code content_type).headings = some hs →
      hs.length ≤ 5) := by
  constructor
  · intro p hp
    have hp' : previewOf doc = some p := hp
    simp only [previewOf] at hp'
    by_cases h0 : spaceJoin (previewChunks doc) = []
    · simp [h0] at hp'
    · have hinner :
          (if spaceJoin (previewChunks doc) ≠ [] then
            (spaceJoin (previewChunks doc)).take 500
          else spaceJoin (previewChunks doc)) =
            (spaceJoin (previewChunks doc)).take 500 := if_pos h0
      rw [hinner] at hp'
      split at hp'
      · exact absurd hp' (by simp)
      · rw [← Option.some.inj hp']
        simp [List.length_take]
  · intro hs hh
    have hh' : headingsOf doc = some hs := hh
    simp only [headingsOf] at hh'
    split at hh'
    · exact absurd hh' (by simp)
    · rw [← Option.some.inj hh']
      simp [headingsList, List.length_take]

/-- Witness for C6 at the crafted fixture page. -/
theorem C6_witness :
    (str "para one para two").length ≤ 500
    ∧ ([str "H one", str "H two"] : List Str).length ≤ 5 :=
  ⟨(C6_preview_headings_bounded c1Doc (str "http://example.com/") 200 none).1
      (str "para one para two") rfl,
   (C6_preview_headings_bounded c1Doc (str "http://example.com/") 200 none).2
      [str "H one", str "H two"] rfl⟩

/-- C7: when no paragraph has non-empty stripped text the preview field
is absent (never the empty string), and an empty extracted headings
collection is likewise encoded as absent. -/
theorem C7_absent_not_empty (doc : List Node) (url : Str) (status_code : Int)
    (content_type : Option Str)
    (hp : ∀ n ∈ findAllList [str "p"] doc, getText n = []) :
    (extractPage doc url status_code content_type).preview = none
    ∧ (headingsList doc = [] →
        (extractPage doc url status_code content_type).headings = none) := by
  have hchunks : previewChunks doc = [] := by
    rw [previewChunks, List.filter_eq_nil_iff]
    intro t ht
    rcases List.mem_map.1 ht with ⟨n, hn, htn⟩
    simp [← htn, hp n hn]
  constructor
  · show previewOf doc = none
    simp [previewOf, hchunks, spaceJoin]
  · intro hh
    show headingsOf doc = none
    rw [headingsOf, if_pos hh]

/-- Witness for C7 at a page whose paragraphs are all blank. -/
theorem C7_witness :
    (extractPage c7Doc (str "http://e/") 200 none).preview = none
    ∧ (extractPage c7Doc (str "http://e/") 200 none).headings = none :=
  ⟨(C7_absent_not_empty c7Doc (str "http://e/") 200 none (by decide)).1,
   (C7_absent_not_empty c7Doc (str "http://e/") 200 none (by decide)).2
     (by decide)⟩

theorem ddgScan_eq_take (maxr : Nat) :
    ∀ (rs : List Node) (acc : List RawResult), acc.length < maxr →
      ddgScan maxr acc rs =
        acc ++ (rs.filterMap candidateRecord).take (maxr - acc.length) := by
  intro rs
  induction rs with
  | nil => intro acc _; simp [ddgScan]
  | cons r rs ih =>
    intro acc hacc
    rw [ddgScan, List.filterMap_cons]
    cases hcr : selectFirstList [resultASel] (nodeChildren r) with
    | none =>
      simp only [candidateRecord, hcr, Option.map_none']
      exact ih acc hacc
    | some title_tag =>
      simp only [candidateRecord, hcr, Option.map_some']
      by_cases hfull : maxr ≤ (acc ++ [scanRecord r title_tag]).length
      · rw [if_pos hfull]
        have h1 : maxr - acc.length = 1 := by
          simp only [List.length_append, List.length_cons, List.length_nil]
            at hfull
          omega
        rw [h1, List.take_succ_cons, List.take_zero]
      · rw [if_neg hfull]
        have hlt := Nat.lt_of_not_le hfull
        rw [ih _ hlt, List.append_assoc]
        have h2 : maxr - acc.length =
            (maxr - (acc ++ [scanRecord r title_tag]).length) + 1 := by
          simp only [List.length_append, List.length_cons, List.length_nil]
          omega
        rw [h2, List.take_succ_cons]
        rfl

/-- C4 (amended to the validated request range `max_results ≥ 1`): the
parser returns exactly the records of the first `max_results` containers
that have a title anchor, in document order — anchorless containers do
not count — and hence never more than `max_results` results. -/
theorem C4_parse_take_valid (dom : List Node) (max_results : Nat)
    (h : 1 ≤ max_results) :
    ddgParse dom max_results =
      (((validCandidates dom).take max_results).map rawToSearchResult,
        (validCandidates dom).take max_results)
    ∧ (ddgParse dom max_results).1.length ≤ max_results := by
  have hscan := ddgScan_eq_take max_results (selectAllList [resultSel] dom)
    [] (by simpa using h)
  simp only [List.length_nil, Nat.sub_zero, List.nil_append] at hscan
  have heq : ddgParse dom max_results =
      (((validCandidates dom).take max_results).map rawToSearchResult,
        (validCandidates dom).take max_results) := by
    rw [ddgParse, hscan, validCandidates]
  refine ⟨heq, ?_⟩
  rw [heq]
  show (((validCandidates dom).take max_results).map rawToSearchResult).length
    ≤ max_results
  rw [List.length_map, List.length_take]
  exact Nat.min_le_left _ _

/-- Witness for C4 on the crafted search response with an anchorless
container interleaved: requesting 2 results returns the first two titled
candidates. -/
theorem C4_witness :
    ddgParse searchDoc 2 =
      (((validCandidates searchDoc).take 2).map rawToSearchResult,
        (validCandidates searchDoc).take 2)
    ∧ (ddgParse searchDoc 2).1.length ≤ 2 :=
  C4_parse_take_valid searchDoc 2 (by omega)

/-- Counterexample for C4 as stated over every `max_results` value: with
`max_results = 0` the loop appends a record before testing the cap, so
one valid container yields one result, exceeding `max_results`. -/
theorem C4_counterexample :
    (ddgParse searchDoc 0).1.length = 1
    ∧ ¬ (ddgParse searchDoc 0).1.length ≤ 0 := by
  exact ⟨by decide, by decide⟩

/-- C2 (amended from "exactly one" to "at most one"): a `ChatResponse`
built without error never has both `results` and `url_content` populated,
and a populated field implies `used_tool` is true and `tool` names the
matching tool; with no tool requested, or a search returning an empty
list, neither field is populated. -/
theorem C2_at_most_one_payload (net : Net) (payload : ChatRequest)
    (r : ChatResponse) (h : (run_agent net payload).outcome = Except.ok r) :
    ¬ (r.results ≠ none ∧ r.url_content ≠ none)
    ∧ (r.results ≠ none →
        r.used_tool = true ∧ r.tool = some (str "duckduckgo_search"))
    ∧ (r.url_content ≠ none →
        r.used_tool = true ∧ r.tool = some (str "fetch_url")) := by
  rcases payload with ⟨msg, tool, url, maxr, region, ss⟩
  cases tool with
  | none =>
    simp only [run_agent] at h
    rw [← Except.ok.inj h]
    simp
  | some tc =>
    cases tc with
    | duckduckgo_search =>
      simp only [run_agent] at h
      rcases hq : duckduckgo_search_tool net msg maxr region ss with ⟨res, calls⟩
      rw [hq] at h
      cases res with
      | error exc => simp at h
      | ok pr =>
        rcases pr with ⟨results, raw_results⟩
        simp only at h
        rw [← Except.ok.inj h]
        by_cases hres : results = [] <;> simp [hres]
    | fetch_url =>
      cases url with
      | none => simp only [run_agent] at h; simp at h
      | some u =>
        simp only [run_agent] at h
        rcases hq : fetch_url_tool net u with ⟨fres, calls⟩
        rw [hq] at h
        cases fres with
        | error exc => simp at h
        | ok url_content =>
          simp only at h
          rw [← Except.ok.inj h]
          simp

/-- Witness for C2 on the no-tool request. -/
theorem C2_witness :
    ¬ (noToolResponse.results ≠ none ∧ noToolResponse.url_content ≠ none)
    ∧ (noToolResponse.results ≠ none →
        noToolResponse.used_tool = true
        ∧ noToolResponse.tool = some (str "duckduckgo_search"))
    ∧ (noToolResponse.url_content ≠ none →
        noToolResponse.used_tool = true
        ∧ noToolResponse.tool = some (str "fetch_url")) :=
  C2_at_most_one_payload trivialNet noToolPayload noToolResponse rfl

/-- Counterexample for C2 as stated: the no-tool request completes with a
response in which neither `results` nor `url_content` is populated, so
"exactly one of the fields is populated" fails. -/
theorem C2_counterexample :
    (run_agent trivialNet noToolPayload).outcome = Except.ok noToolResponse
    ∧ noToolResponse.results = none
    ∧ noToolResponse.url_content = none :=
  ⟨rfl, rfl, rfl⟩

/-- C3 (amended): only the two tool-invoking transitions append audit
entries — an error-free tool run appends exactly one entry to each of the
tool-invocation and raw-output lists — while the no-tool transition
appends none; every error-free run records the final response in the
trail. -/
theorem C3_audit_trail_entries (net : Net) (payload : ChatRequest)
    (r : ChatResponse) (h : (run_agent net payload).outcome = Except.ok r) :
    (payload.tool ≠ none →
      (run_agent net payload).history.tool_calls.length = 1
      ∧ (run_agent net payload).history.tool_results.length = 1)
    ∧ (payload.tool = none →
      (run_agent net payload).history.tool_calls.length = 0
      ∧ (run_agent net payload).history.tool_results.length = 0)
    ∧ (run_agent net payload).history.final_response = some r := by
  rcases payload with ⟨msg, tool, url, maxr, region, ss⟩
  cases tool with
  | none =>
    simp only [run_agent] at h ⊢
    rw [← Except.ok.inj h]
    simp
  | some tc =>
    cases tc with
    | duckduckgo_search =>
      simp only [run_agent] at h ⊢
      rcases hq : duckduckgo_search_tool net msg maxr region ss with ⟨res, calls⟩
      rw [hq] at h
      cases res with
      | error exc => simp at h
      | ok pr =>
        rcases pr with ⟨results, raw_results⟩
        simp only at h ⊢
        rw [← Except.ok.inj h]
        simp
    | fetch_url =>
      cases url with
      | none => simp only [run_agent] at h; simp at h
      | some u =>
        simp only [run_agent] at h ⊢
        rcases hq : fetch_url_tool net u with ⟨fres, calls⟩
        rw [hq] at h
        cases fres with
        | error exc => simp at h
        | ok url_content =>
          simp only at h ⊢
          rw [← Except.ok.inj h]
          simp

/-- Witness for C3 on an error-free search run. -/
theorem C3_witness :
    (searchReqPayload.tool ≠ none →
      (run_agent trivialNet searchReqPayload).history.tool_calls.length = 1
      ∧ (run_agent trivialNet searchReqPayload).history.tool_results.length = 1)
    ∧ (searchReqPayload.tool = none →
      (run_agent trivialNet searchReqPayload).history.tool_calls.length = 0
      ∧ (run_agent trivialNet searchReqPayload).history.tool_results.length = 0)
    ∧ (run_agent trivialNet searchReqPayload).history.final_response =
        some emptySearchResponse :=
  C3_audit_trail_entries trivialNet searchReqPayload emptySearchResponse rfl

/-- Counterexample for C3 as stated: the no-tool transition completes
without error yet appends zero entries to both audit lists, not one. -/
theorem C3_counterexample :
    (run_agent trivialNet noToolPayload).outcome = Except.ok noToolResponse
    ∧ (run_agent trivialNet noToolPayload).history.tool_calls = []
    ∧ (run_agent trivialNet noToolPayload).history.tool_results = [] :=
  ⟨rfl, rfl, rfl⟩

/-- C8: a `fetch_url` request without a `url` fails with a 422 validation
error, performs zero network calls, and leaves the audit trail without
any tool-call entry. -/
theorem C8_missing_url_validation (net : Net) (payload : ChatRequest)
    (h1 : payload.tool = some ToolChoice.fetch_url)
    (h2 : payload.url = none) :
    (run_agent net payload).outcome =
      Except.error ⟨422,
        str "Field \x27url\x27 is required when using tool=\x27fetch_url\x27."⟩
    ∧ (run_agent net payload).calls = []
    ∧ (run_agent net payload).history.tool_calls = []
    ∧ (run_agent net payload).history.tool_results = [] := by
  rcases payload with ⟨msg, tool, url, maxr, region, ss⟩
  simp only at h1 h2
  subst h1
  subst h2
  exact ⟨rfl, rfl, rfl, rfl⟩

/-- Witness for C8 at a concrete url-less fetch request. -/
theorem C8_witness :
    (run_agent trivialNet fetchNoUrlPayload).outcome =
      Except.error ⟨422,
        str "Field \x27url\x27 is required when using tool=\x27fetch_url\x27."⟩
    ∧ (run_agent trivialNet fetchNoUrlPayload).calls = []
    ∧ (run_agent trivialNet fetchNoUrlPayload).history.tool_calls = []
    ∧ (run_agent trivialNet fetchNoUrlPayload).history.tool_results = [] :=
  C8_missing_url_validation trivialNet fetchNoUrlPayload rfl rfl

/-- C9: for the same request over the same tool layer, the non-streaming
endpoint returns exactly the response carried by the streaming endpoint
final message event, which is preceded by the token events of its reply
chunks; reply, results and url_content therefore coincide. -/
theorem C9_stream_matches_nonstream (net : Net) (payload : ChatRequest)
    (r : ChatResponse) (h : (run_agent net payload).outcome = Except.ok r) :
    chat_agent net payload = Except.ok r
    ∧ chat_agent_stream net payload = Except.ok (eventList r)
    ∧ eventList r =
        (chunk_reply r.reply).map StreamEvent.token ++ [StreamEvent.message r]
    ∧ (eventList r).getLast? = some (StreamEvent.message r) := by
  refine ⟨h, ?_, rfl, ?_⟩
  · unfold chat_agent_stream
    rw [h]
  · rw [eventList]
    exact List.getLast?_concat _

/-- Witness for C9 on the no-tool request. -/
theorem C9_witness :
    chat_agent trivialNet noToolPayload = Except.ok noToolResponse
    ∧ chat_agent_stream trivialNet noToolPayload =
        Except.ok (eventList noToolResponse)
    ∧ eventList noToolResponse =
        (chunk_reply noToolResponse.reply).map StreamEvent.token ++
          [StreamEvent.message noToolResponse]
    ∧ (eventList noToolResponse).getLast? =
        some (StreamEvent.message noToolResponse) :=
  C9_stream_matches_nonstream trivialNet noToolPayload noToolResponse rfl

end App
